import Mathlib

/-!
Shallow embedding of the shape-inference functions registered in
`tensorflow/core/ops/ragged_conversion_ops.cc`:

* `RaggedTensorToSparseShapeFn`
* `RaggedTensorToVariantShapeFn`
* `RaggedTensorFromVariantShapeFn`

Shapes are possibly-unknown-rank lists of possibly-unknown dimensions, as
in the `InferenceContext` collaborator the functions are written against.
The `InferenceContext` primitives used by the three functions (`WithRank`,
`WithRankAtLeast`, `NumElements`, `Dim`, `Subtract`, and the shape
constructors) are embedded with their semantics from
`tensorflow/core/framework/shape_inference.cc`.  Each shape function is a
pure function from attribute values and input shapes to a `RunResult`:
the returned status together with the full record of `set_output` calls
made during the run.
-/

namespace RaggedOps

/-- A `DimensionHandle`: a possibly-unknown non-negative size. -/
abbrev Dim := Option Nat

/-- A `ShapeHandle`: unknown rank (`none`), or a list of dimensions. -/
abbrev Shape := Option (List Dim)

/-- `InferenceContext::UnknownDim()`. -/
def unknownDim : Dim := none

/-- `InferenceContext::MakeDim(n)` for a known non-negative value. -/
def makeDim (n : Nat) : Dim := some n

/-- `InferenceContext::UnknownShape()`. -/
def unknownShape : Shape := none

/-- `InferenceContext::Scalar()`. -/
def scalar : Shape := some []

/-- `InferenceContext::Vector(d)`. -/
def vector (d : Dim) : Shape := some [d]

/-- `InferenceContext::Matrix(d1, d2)`. -/
def matrix (d1 d2 : Dim) : Shape := some [d1, d2]

/-- `InferenceContext::UnknownShapeOfRank(r)`: rank `r`, all dims unknown. -/
def unknownShapeOfRank (r : Nat) : Shape := some (List.replicate r unknownDim)

/-- `InferenceContext::RankKnown(s)`. -/
def rankKnown (s : Shape) : Bool := s.isSome

/-- `InferenceContext::WithRank(s, r)` for a non-negative requested rank:
succeeds when the rank is unknown (narrowing to rank `r`, all dims
unknown) or already equals `r`; fails otherwise. -/
def withRank (s : Shape) (r : Nat) : Except String Shape :=
  match s with
  | none => .ok (unknownShapeOfRank r)
  | some ds =>
    if ds.length = r then .ok (some ds)
    else .error "Shape must be rank r but is a different rank"

/-- `InferenceContext::WithRankAtLeast(s, r)`: succeeds when the rank is
unknown (returning the shape unchanged) or is at least `r`. -/
def withRankAtLeast (s : Shape) (r : Nat) : Except String Shape :=
  match s with
  | none => .ok none
  | some ds =>
    if r ≤ ds.length then .ok (some ds)
    else .error "Shape must be at least rank r but is a smaller rank"

/-- Product of a dimension list: unknown as soon as any factor is unknown
(the loop body of `InferenceContext::NumElements`). -/
def prodDims : List Dim → Dim
  | [] => some 1
  | d :: rest =>
    match d with
    | none => none
    | some x =>
      match prodDims rest with
      | none => none
      | some y => some (x * y)

/-- `InferenceContext::NumElements(s)`: unknown if the rank or any
dimension is unknown, else the product of all dimensions. -/
def numElements (s : Shape) : Dim :=
  match s with
  | none => unknownDim
  | some ds => prodDims ds

/-- `InferenceContext::Dim(s, i)`: unknown when the rank is unknown. -/
def dimOf (s : Shape) (i : Nat) : Dim :=
  match s with
  | none => unknownDim
  | some ds =>
    match ds.get? i with
    | some d => d
    | none => unknownDim

/-- `InferenceContext::Subtract(d, k)` for a known constant `k`:
returns `d` when `k = 0`, propagates unknown, and fails when the result
would be negative. -/
def subtractDim (d : Dim) (k : Nat) : Except String Dim :=
  if k = 0 then .ok d
  else
    match d with
    | none => .ok unknownDim
    | some v =>
      if v < k then .error "Negative dimension size caused by subtracting"
      else .ok (some (v - k))

/-- `c->input(i)`.  The host guarantees the arity, so out-of-range access
never happens on the claims considered; the default is unknown shape. -/
def inputAt (inputs : List Shape) (i : Nat) : Shape := inputs.getD i unknownShape

/-- The `rt_nested_splits` validation loop shared by
`RaggedTensorToSparseShapeFn` and `RaggedTensorToVariantShapeFn`:
assert each split shape has rank exactly 1, discarding the narrowed
handle, stopping at the first failure. -/
def checkRank1List : List Shape → Except String Unit
  | [] => .ok ()
  | s :: rest =>
    match withRank s 1 with
    | .error e => .error e
    | .ok _ => checkRank1List rest

/-- Status of one inference call together with every `set_output` call it
made, in order. -/
structure RunResult where
  status : Except String Unit
  outputs : List (Nat × Shape)
deriving Repr

/-- Whether a run succeeded. -/
def statusOk (r : RunResult) : Bool :=
  match r.status with
  | .ok _ => true
  | .error _ => false

/-- `kint32max`, the cap checked by `InferenceContext::WithRank`. -/
def kint32max : Int := 2147483647

/-- `RaggedTensorToSparseShapeFn` from
`tensorflow/core/ops/ragged_conversion_ops.cc`.  Attributes `RAGGED_RANK`
(an `int64`); inputs are `RAGGED_RANK` split shapes followed by the dense
values shape. -/
def RaggedTensorToSparseShapeFn (RAGGED_RANK : Int) (inputs : List Shape) :
    RunResult :=
  if RAGGED_RANK < 1 then ⟨.error "Requires RAGGED_RANK>0", []⟩
  else
    match withRankAtLeast (inputAt inputs RAGGED_RANK.toNat) 1 with
    | .error e => ⟨.error e, []⟩
    | .ok rt_dense_values =>
      match checkRank1List
          ((List.range RAGGED_RANK.toNat).map (inputAt inputs)) with
      | .error e => ⟨.error e, []⟩
      | .ok _ =>
        ⟨.ok (),
          [(0, matrix (numElements rt_dense_values)
                (match rt_dense_values with
                 | some ds => makeDim (ds.length + RAGGED_RANK.toNat)
                 | none => unknownDim)),
           (1, vector (numElements rt_dense_values)),
           (2, vector
                (match rt_dense_values with
                 | some ds => makeDim (ds.length + RAGGED_RANK.toNat)
                 | none => unknownDim))]⟩

/-- `RaggedTensorToVariantShapeFn` from
`tensorflow/core/ops/ragged_conversion_ops.cc`.  Attributes `RAGGED_RANK`
and `batched_input`; same inputs as `RaggedTensorToSparseShapeFn`. -/
def RaggedTensorToVariantShapeFn (RAGGED_RANK : Int) (batched_input : Bool)
    (inputs : List Shape) : RunResult :=
  match withRankAtLeast (inputAt inputs RAGGED_RANK.toNat) 1 with
  | .error e => ⟨.error e, []⟩
  | .ok _ =>
    match checkRank1List
        ((List.range RAGGED_RANK.toNat).map (inputAt inputs)) with
    | .error e => ⟨.error e, []⟩
    | .ok _ =>
      if batched_input then
        match subtractDim (dimOf (inputAt inputs 0) 0) 1 with
        | .error e => ⟨.error e, []⟩
        | .ok num_rows => ⟨.ok (), [(0, vector num_rows)]⟩
      else
        ⟨.ok (), [(0, scalar)]⟩

/-- The conditional rank assertion of `RaggedTensorFromVariantShapeFn`:
when the encoded input's rank is known, `WithRank` asserts it equals
`output_ragged_rank - input_ragged_rank` (an `int64`, possibly negative;
`WithRank` first rejects ranks above `kint32max`, then compares against
the known existing rank), discarding the narrowed handle; when the rank
is unknown, no check is performed. -/
def fromVariantCheck (input_ragged_rank output_ragged_rank : Int)
    (encoded_ragged : Shape) : Except String Unit :=
  match encoded_ragged with
  | none => .ok ()
  | some ds =>
    if output_ragged_rank - input_ragged_rank > kint32max then
      .error "Rank is too large"
    else if (ds.length : Int) = output_ragged_rank - input_ragged_rank then
      .ok ()
    else .error "Shape must be rank r but is a different rank"

/-- `RaggedTensorFromVariantShapeFn` from
`tensorflow/core/ops/ragged_conversion_ops.cc`.  Attributes
`input_ragged_rank` and `output_ragged_rank`; input 0 is the encoded
variant shape. -/
def RaggedTensorFromVariantShapeFn (input_ragged_rank output_ragged_rank : Int)
    (inputs : List Shape) : RunResult :=
  match fromVariantCheck input_ragged_rank output_ragged_rank
      (inputAt inputs 0) with
  | .error e => ⟨.error e, []⟩
  | .ok _ =>
    ⟨.ok (),
      (List.range output_ragged_rank.toNat).map
          (fun i => (i, unknownShapeOfRank 1))
        ++ [(output_ragged_rank.toNat, unknownShape)]⟩

/-! ### Helper lemmas about the embedded `InferenceContext` primitives -/

theorem withRank_one_of_rank_one (d : Dim) : withRank (some [d]) 1 = .ok (some [d]) := rfl

theorem checkRank1List_ok_of (l : List Shape)
    (h : ∀ s ∈ l, ∃ d, s = some [d]) : checkRank1List l = .ok () := by
  induction l with
  | nil => rfl
  | cons s rest ih =>
    obtain ⟨d, rfl⟩ := h s (List.mem_cons_self s rest)
    rw [checkRank1List, withRank_one_of_rank_one]
    exact ih fun t ht => h t (List.mem_cons_of_mem _ ht)

theorem checkRank1List_error_of (l : List Shape) (ds : List Dim)
    (h : some ds ∈ l) (hlen : ds.length ≠ 1) :
    ∃ e, checkRank1List l = .error e := by
  induction l with
  | nil => cases h
  | cons s rest ih =>
    rcases List.mem_cons.mp h with hs | hs
    · refine ⟨"Shape must be rank r but is a different rank", ?_⟩
      rw [← hs, checkRank1List]
      simp [withRank, hlen]
    · cases hw : withRank s 1 with
      | error e => exact ⟨e, by rw [checkRank1List, hw]⟩
      | ok t =>
        obtain ⟨e, he⟩ := ih hs
        exact ⟨e, by rw [checkRank1List, hw, he]⟩

theorem prodDims_of_all_known (ds : List Dim) (h : ∀ d ∈ ds, d.isSome = true) :
    prodDims ds = some ((ds.map (fun d => d.getD 0)).prod) := by
  induction ds with
  | nil => rfl
  | cons d rest ih =>
    obtain ⟨x, rfl⟩ := Option.isSome_iff_exists.mp (h d (List.mem_cons_self d rest))
    simp [prodDims, ih fun t ht => h t (List.mem_cons_of_mem _ ht)]

theorem prodDims_of_unknown_mem (ds : List Dim) (h : none ∈ ds) :
    prodDims ds = none := by
  induction ds with
  | nil => cases h
  | cons d rest ih =>
    rcases List.mem_cons.mp h with hs | hs
    · simp [prodDims, ← hs]
    · cases d with
      | none => rfl
      | some x => simp [prodDims, ih hs]

theorem inputAt_append_values (l : List Shape) (v : Shape) :
    inputAt (l ++ [v]) l.length = v := by
  rw [inputAt, List.getD_append_right _ _ _ _ (Nat.le_refl _)]
  simp

theorem inputAt_append_split (l : List Shape) (v : Shape) (i : Nat)
    (h : i < l.length) : inputAt (l ++ [v]) i = l.getD i unknownShape := by
  rw [inputAt, List.getD_append _ _ _ _ h]

theorem getD_mem_of_lt (l : List Shape) (i : Nat) (h : i < l.length) :
    l.getD i unknownShape ∈ l := by
  rw [List.getD_eq_getElem l _ h]
  exact List.getElem_mem h

/-! ### Claim theorems -/

/-- C2: for RaggedTensorToSparse shape inference, whenever the
`RAGGED_RANK` attribute is less than 1 (in particular 0), the call fails
with the InvalidArgument error `Requires RAGGED_RANK>0` and no outputs
are set, regardless of the input shapes. -/
theorem toSparse_raggedRank_lt_one_fails (k : Int) (inputs : List Shape)
    (h : k < 1) :
    RaggedTensorToSparseShapeFn k inputs =
      ⟨.error "Requires RAGGED_RANK>0", []⟩ := by
  rw [RaggedTensorToSparseShapeFn, if_pos h]

/-- Witness for `toSparse_raggedRank_lt_one_fails` at `RAGGED_RANK = 0`. -/
theorem toSparse_raggedRank_lt_one_fails_witness :
    (0 : Int) < 1 ∧ RaggedTensorToSparseShapeFn 0 [] =
      ⟨.error "Requires RAGGED_RANK>0", []⟩ :=
  ⟨by decide, toSparse_raggedRank_lt_one_fails 0 [] (by decide)⟩

/-- C4: for RaggedTensorFromVariant shape inference, every successful call
with `output_ragged_rank = r` sets outputs `0 .. r-1` to rank-1 shapes of
unknown length and output `r` to a shape of fully unknown rank, each
exactly once.  (The witness instantiates the concrete case
`input_ragged_rank = 1`, `output_ragged_rank = 3`, input rank known 2,
which succeeds.) -/
theorem fromVariant_success_outputs (inr outr : Int) (inputs : List Shape)
    (h : statusOk (RaggedTensorFromVariantShapeFn inr outr inputs) = true) :
    RaggedTensorFromVariantShapeFn inr outr inputs =
      ⟨.ok (), (List.range outr.toNat).map (fun i => (i, unknownShapeOfRank 1))
        ++ [(outr.toNat, unknownShape)]⟩ := by
  rw [RaggedTensorFromVariantShapeFn] at h ⊢
  cases hc : fromVariantCheck inr outr (inputAt inputs 0) with
  | error e =>
    rw [hc] at h
    simp [statusOk] at h
  | ok u => rfl

/-- Witness for `fromVariant_success_outputs` at `input_ragged_rank = 1`,
`output_ragged_rank = 3`, with an input of known rank 2 (the successful
concrete configuration named by the claim). -/
theorem fromVariant_success_outputs_witness :
    statusOk (RaggedTensorFromVariantShapeFn 1 3 [some [none, none]]) = true ∧
    RaggedTensorFromVariantShapeFn 1 3 [some [none, none]] =
      ⟨.ok (), [(0, unknownShapeOfRank 1), (1, unknownShapeOfRank 1),
                (2, unknownShapeOfRank 1), (3, unknownShape)]⟩ :=
  ⟨rfl, fromVariant_success_outputs 1 3 [some [none, none]] rfl⟩

/-- C5 counterexample: with `input_ragged_rank = 1`,
`output_ragged_rank = 3` and an input of known rank 2, the inference call
does NOT fail: the asserted rank is `3 - 1 = 2`, which matches the input
rank, so the call returns OK. -/
theorem fromVariant_1_3_rank2_not_fail :
    (RaggedTensorFromVariantShapeFn 1 3 [some [none, none]]).status =
      .ok () := rfl

/-- C5 amended: with `input_ragged_rank = 1`, `output_ragged_rank = 3`
and any input shape of known rank 2, the inference call succeeds, setting
three rank-1 unknown-length split outputs and one fully-unknown values
output. -/
theorem fromVariant_1_3_rank2_succeeds (ds : List Dim) (h : ds.length = 2) :
    RaggedTensorFromVariantShapeFn 1 3 [some ds] =
      ⟨.ok (), [(0, unknownShapeOfRank 1), (1, unknownShapeOfRank 1),
                (2, unknownShapeOfRank 1), (3, unknownShape)]⟩ := by
  have hc : fromVariantCheck 1 3 (some ds) = .ok () := by
    simp [fromVariantCheck, h, kint32max]
  have hin : inputAt [some ds] 0 = some ds := rfl
  rw [RaggedTensorFromVariantShapeFn, hin, hc]
  rfl

/-- Witness for `fromVariant_1_3_rank2_succeeds` at the rank-2 input with
both dimensions unknown. -/
theorem fromVariant_1_3_rank2_succeeds_witness :
    ([none, none] : List Dim).length = 2 ∧
    RaggedTensorFromVariantShapeFn 1 3 [some [none, none]] =
      ⟨.ok (), [(0, unknownShapeOfRank 1), (1, unknownShapeOfRank 1),
                (2, unknownShapeOfRank 1), (3, unknownShape)]⟩ :=
  ⟨rfl, fromVariant_1_3_rank2_succeeds [none, none] rfl⟩

/-- C6: for RaggedTensorFromVariant shape inference, whenever
`output_ragged_rank < input_ragged_rank` (a negative expected rank) and
the input shape has known rank, the call fails: the rank-equality
assertion of a non-negative rank against a negative expected rank can
never succeed, and no outputs are set. -/
theorem fromVariant_negative_expected_rank_fails (inr outr : Int)
    (ds : List Dim) (inputs : List Shape)
    (hlt : outr < inr) (h0 : inputAt inputs 0 = some ds) :
    RaggedTensorFromVariantShapeFn inr outr inputs =
      ⟨.error "Shape must be rank r but is a different rank", []⟩ := by
  have h1 : ¬(outr - inr > kint32max) := by
    unfold kint32max
    omega
  have h2 : ¬((ds.length : Int) = outr - inr) := by
    omega
  have hc : fromVariantCheck inr outr (some ds) =
      .error "Shape must be rank r but is a different rank" := by
    simp [fromVariantCheck, h1, h2]
  rw [RaggedTensorFromVariantShapeFn, h0, hc]

/-- C1 counterexample: with `RAGGED_RANK = 1`, a rank-1 split input and a
values input of known rank 0, the call does not succeed (the claim
asserts success for every known values rank): `WithRankAtLeast` on the
rank-0 values shape fails and no outputs are set. -/
theorem toSparse_rank0_values_fails :
    RaggedTensorToSparseShapeFn 1 [some [some 2], some []] =
      ⟨.error "Shape must be at least rank r but is a smaller rank", []⟩ := rfl

/-- C1 amended: for RaggedTensorToSparse shape inference with
`RAGGED_RANK = k ≥ 1`, a values input of known rank `v ≥ 1` and all split
inputs of rank 1, the call succeeds and sets output 0 (indices) to the
2-D shape `[N, v+k]`, output 1 (values) to the 1-D shape `[N]` and output
2 (dense_shape) to a 1-D shape of length `v+k`, where `N` is the element
count of the values shape: the product of its dimensions when all are
known, unknown when any contributing dimension is unknown; the same `N`
appears in indices and values. -/
theorem toSparse_shapes (k : Int) (splits : List Shape) (vdims : List Dim)
    (hk : 1 ≤ k) (hlen : splits.length = k.toNat)
    (hsplit : ∀ s ∈ splits, ∃ d, s = some [d])
    (hv : 1 ≤ vdims.length) :
    RaggedTensorToSparseShapeFn k (splits ++ [some vdims]) =
      ⟨.ok (),
        [(0, matrix (numElements (some vdims))
              (makeDim (vdims.length + k.toNat))),
         (1, vector (numElements (some vdims))),
         (2, vector (makeDim (vdims.length + k.toNat)))]⟩ ∧
    ((∀ d ∈ vdims, d.isSome = true) →
      numElements (some vdims) = some ((vdims.map (fun d => d.getD 0)).prod)) ∧
    (none ∈ vdims → numElements (some vdims) = none) := by
  refine ⟨?_, fun h => prodDims_of_all_known vdims h,
    fun h => prodDims_of_unknown_mem vdims h⟩
  have hnk : ¬(k < 1) := not_lt.mpr hk
  have hval : inputAt (splits ++ [some vdims]) k.toNat = some vdims := by
    rw [← hlen]
    exact inputAt_append_values splits (some vdims)
  have hwral : withRankAtLeast (some vdims) 1 = .ok (some vdims) := by
    simp [withRankAtLeast, hv]
  have hchk : checkRank1List
      ((List.range k.toNat).map (inputAt (splits ++ [some vdims]))) =
      .ok () := by
    apply checkRank1List_ok_of
    intro s hs
    obtain ⟨i, hi, rfl⟩ := List.mem_map.mp hs
    have hilt : i < splits.length := by
      rw [hlen]
      exact List.mem_range.mp hi
    rw [inputAt_append_split splits (some vdims) i hilt]
    exact hsplit _ (getD_mem_of_lt splits i hilt)
  rw [RaggedTensorToSparseShapeFn, if_neg hnk, hval, hwral, hchk]

/-- Witness for `toSparse_shapes` at `RAGGED_RANK = 2`, splits `[3]` and
`[?]`, values shape `[4, 5]` (so `N = 20` and `v + k = 4`). -/
theorem toSparse_shapes_witness :
    (1 : Int) ≤ 2 ∧
    RaggedTensorToSparseShapeFn 2
        ([some [some 3], some [none]] ++ [some [some 4, some 5]]) =
      ⟨.ok (),
        [(0, matrix (numElements (some [some 4, some 5])) (makeDim 4)),
         (1, vector (numElements (some [some 4, some 5]))),
         (2, vector (makeDim 4))]⟩ ∧
    numElements (some [some (4 : Nat), some 5]) = some 20 :=
  ⟨by decide,
    (toSparse_shapes 2 [some [some 3], some [none]] [some 4, some 5]
      (by decide) (by decide)
      (by
        intro s hs
        simp only [List.mem_cons, List.not_mem_nil, or_false] at hs
        rcases hs with rfl | rfl
        · exact ⟨some 3, rfl⟩
        · exact ⟨none, rfl⟩)
      (by decide)).1,
    rfl⟩

/-- C3 counterexample: with `batched_input = true`, `RAGGED_RANK = 1` and
first split shape `[0]` (known length 0), the call does not produce the
output `[L-1]`: `Subtract(0, 1)` fails with a negative-dimension error
and no outputs are set. -/
theorem toVariant_first_split_zero_counterexample :
    RaggedTensorToVariantShapeFn 1 true [some [some 0], some [some 5]] =
      ⟨.error "Negative dimension size caused by subtracting", []⟩ := rfl

/-- C3 amended: for RaggedTensorToVariant shape inference with
`batched_input = true` and all rank assertions passing, when the first
split input's leading dimension is not the known value 0, the single
output is the 1-D shape `[L-1]` when that dimension is a known `L ≥ 1`,
and a 1-D shape of unknown length when the first split dimension (or its
rank) is unknown; a known first split `[0]` instead fails. -/
theorem toVariant_batched_shape (k : Int) (inputs : List Shape)
    (hvals : withRankAtLeast (inputAt inputs k.toNat) 1 =
      .ok (inputAt inputs k.toNat))
    (hsplits : checkRank1List ((List.range k.toNat).map (inputAt inputs)) =
      .ok ())
    (hd : dimOf (inputAt inputs 0) 0 ≠ some 0) :
    RaggedTensorToVariantShapeFn k true inputs =
      ⟨.ok (), [(0, vector (Option.map (fun n => n - 1)
        (dimOf (inputAt inputs 0) 0)))]⟩ := by
  cases hdim : dimOf (inputAt inputs 0) 0 with
  | none =>
    rw [RaggedTensorToVariantShapeFn, hvals, hsplits, hdim]
    rfl
  | some v =>
    have hv1 : ¬(v < 1) := by
      rcases Nat.eq_zero_or_pos v with rfl | hp
      · exact absurd hdim hd
      · omega
    rw [RaggedTensorToVariantShapeFn, hvals, hsplits, hdim]
    simp [subtractDim, hv1]

/-- Witness for `toVariant_batched_shape` at `RAGGED_RANK = 1`, first
split shape `[3]`, values shape `[2]`: the output is `[2]`. -/
theorem toVariant_batched_shape_witness :
    dimOf (inputAt [some [some 3], some [some 2]] 0) 0 ≠ some 0 ∧
    RaggedTensorToVariantShapeFn 1 true [some [some 3], some [some 2]] =
      ⟨.ok (), [(0, vector (some 2))]⟩ :=
  ⟨by decide,
    toVariant_batched_shape 1 [some [some 3], some [some 2]] rfl rfl
      (by decide)⟩

/-- C7: for RaggedTensorToSparse and RaggedTensorToVariant shape
inference, a split input (index `i < RAGGED_RANK`) whose rank is known
and different from 1 causes the whole inference call to fail, while a
split input of unknown rank is accepted by the rank-1 assertion and
narrowed to rank 1. -/
theorem split_rank_ne_one_fails (k : Int) (b : Bool) (inputs : List Shape)
    (i : Nat) (ds : List Dim)
    (hk : 1 ≤ k) (hi : i < k.toNat)
    (hin : inputAt inputs i = some ds) (hlen : ds.length ≠ 1) :
    (statusOk (RaggedTensorToSparseShapeFn k inputs) = false ∧
     statusOk (RaggedTensorToVariantShapeFn k b inputs) = false) ∧
    withRank unknownShape 1 = .ok (unknownShapeOfRank 1) := by
  have hmem : some ds ∈ (List.range k.toNat).map (inputAt inputs) := by
    rw [← hin]
    exact List.mem_map_of_mem _ (List.mem_range.mpr hi)
  obtain ⟨e, he⟩ := checkRank1List_error_of _ ds hmem hlen
  refine ⟨⟨?_, ?_⟩, rfl⟩
  · rw [RaggedTensorToSparseShapeFn, if_neg (not_lt.mpr hk)]
    cases h1 : withRankAtLeast (inputAt inputs k.toNat) 1 with
    | error e2 => rfl
    | ok s =>
      rw [he]
      rfl
  · rw [RaggedTensorToVariantShapeFn]
    cases h1 : withRankAtLeast (inputAt inputs k.toNat) 1 with
    | error e2 => rfl
    | ok s =>
      rw [he]
      rfl

/-- Witness for `split_rank_ne_one_fails` at `RAGGED_RANK = 1` with a
rank-2 split input. -/
theorem split_rank_ne_one_fails_witness :
    (0 : Nat) < (1 : Int).toNat ∧
    inputAt [some [some 1, some 2], some [some 5]] 0 = some [some 1, some 2] ∧
    ((statusOk (RaggedTensorToSparseShapeFn 1
        [some [some 1, some 2], some [some 5]]) = false ∧
      statusOk (RaggedTensorToVariantShapeFn 1 true
        [some [some 1, some 2], some [some 5]]) = false) ∧
     withRank unknownShape 1 = .ok (unknownShapeOfRank 1)) :=
  ⟨by decide, rfl,
    split_rank_ne_one_fails 1 true [some [some 1, some 2], some [some 5]] 0
      [some 1, some 2] (by decide) (by decide) rfl (by decide)⟩

/-- C8: for RaggedTensorToVariant shape inference with
`batched_input = false`, every successful call sets the single output to
the scalar (rank-0) shape, whatever the input shapes. -/
theorem toVariant_unbatched_scalar (k : Int) (inputs : List Shape)
    (h : statusOk (RaggedTensorToVariantShapeFn k false inputs) = true) :
    RaggedTensorToVariantShapeFn k false inputs = ⟨.ok (), [(0, scalar)]⟩ := by
  rw [RaggedTensorToVariantShapeFn] at h ⊢
  cases h1 : withRankAtLeast (inputAt inputs k.toNat) 1 with
  | error e =>
    rw [h1] at h
    simp [statusOk] at h
  | ok s =>
    rw [h1] at h
    cases h2 : checkRank1List ((List.range k.toNat).map (inputAt inputs)) with
    | error e =>
      rw [h2] at h
      simp [statusOk] at h
    | ok u => rfl

/-- Witness for `toVariant_unbatched_scalar` at `RAGGED_RANK = 1` with
valid inputs. -/
theorem toVariant_unbatched_scalar_witness :
    statusOk (RaggedTensorToVariantShapeFn 1 false
      [some [some 2], some [some 3]]) = true ∧
    RaggedTensorToVariantShapeFn 1 false [some [some 2], some [some 3]] =
      ⟨.ok (), [(0, scalar)]⟩ :=
  ⟨rfl, toVariant_unbatched_scalar 1 [some [some 2], some [some 3]] rfl⟩

/-- C9: each of the three shape-inference functions either succeeds and
sets exactly its declared outputs, each index exactly once and in order
(`[0, 1, 2]` for ToSparse, `[0]` for ToVariant, `0 .. output_ragged_rank`
for FromVariant), or fails having set no output at all. -/
theorem no_outputs_on_failure (k inr outr : Int) (b : Bool)
    (inputs : List Shape) :
    ((RaggedTensorToSparseShapeFn k inputs).outputs.map Prod.fst =
      if statusOk (RaggedTensorToSparseShapeFn k inputs) = true
      then [0, 1, 2] else []) ∧
    ((RaggedTensorToVariantShapeFn k b inputs).outputs.map Prod.fst =
      if statusOk (RaggedTensorToVariantShapeFn k b inputs) = true
      then [0] else []) ∧
    ((RaggedTensorFromVariantShapeFn inr outr inputs).outputs.map Prod.fst =
      if statusOk (RaggedTensorFromVariantShapeFn inr outr inputs) = true
      then List.range (outr.toNat + 1) else []) := by
  refine ⟨?_, ?_, ?_⟩
  · rw [RaggedTensorToSparseShapeFn]
    by_cases hk : k < 1
    · rw [if_pos hk]
      rfl
    · rw [if_neg hk]
      cases withRankAtLeast (inputAt inputs k.toNat) 1 with
      | error e => rfl
      | ok s =>
        cases checkRank1List ((List.range k.toNat).map (inputAt inputs)) with
        | error e => rfl
        | ok u => rfl
  · rw [RaggedTensorToVariantShapeFn]
    cases withRankAtLeast (inputAt inputs k.toNat) 1 with
    | error e => rfl
    | ok s =>
      cases checkRank1List ((List.range k.toNat).map (inputAt inputs)) with
      | error e => rfl
      | ok u =>
        cases b with
        | false => rfl
        | true =>
          cases subtractDim (dimOf (inputAt inputs 0) 0) 1 with
          | error e => rfl
          | ok d => rfl
  · rw [RaggedTensorFromVariantShapeFn]
    cases fromVariantCheck inr outr (inputAt inputs 0) with
    | error e => rfl
    | ok u =>
      have hcomp : (Prod.fst ∘ fun i : Nat => (i, unknownShapeOfRank 1)) = id :=
        rfl
      simp [statusOk, List.map_map, hcomp, List.range_succ]

/-- C10: for RaggedTensorToVariant shape inference with
`batched_input = true` and `RAGGED_RANK ≥ 1`, a first split input of
known rank-1 shape `[0]` makes the call fail (subtracting 1 from the
known dimension 0 would be negative) with no outputs set. -/
theorem toVariant_first_split_zero_fails (k : Int) (inputs : List Shape)
    (_hk : 1 ≤ k) (h0 : inputAt inputs 0 = some [makeDim 0]) :
    statusOk (RaggedTensorToVariantShapeFn k true inputs) = false ∧
    (RaggedTensorToVariantShapeFn k true inputs).outputs = [] := by
  rw [RaggedTensorToVariantShapeFn]
  cases h1 : withRankAtLeast (inputAt inputs k.toNat) 1 with
  | error e => exact ⟨rfl, rfl⟩
  | ok s =>
    cases h2 : checkRank1List ((List.range k.toNat).map (inputAt inputs)) with
    | error e => exact ⟨rfl, rfl⟩
    | ok u =>
      rw [h0]
      exact ⟨rfl, rfl⟩

/-- Witness for `toVariant_first_split_zero_fails` at `RAGGED_RANK = 1`
with first split `[0]`. -/
theorem toVariant_first_split_zero_fails_witness :
    (1 : Int) ≤ 1 ∧
    inputAt [some [some 0], some [some 5]] 0 = some [makeDim 0] ∧
    (statusOk (RaggedTensorToVariantShapeFn 1 true
        [some [some 0], some [some 5]]) = false ∧
     (RaggedTensorToVariantShapeFn 1 true
        [some [some 0], some [some 5]]).outputs = []) :=
  ⟨by decide, rfl,
    toVariant_first_split_zero_fails 1 [some [some 0], some [some 5]]
      (by decide) rfl⟩

/-- Witness for `fromVariant_negative_expected_rank_fails` at
`input_ragged_rank = 2`, `output_ragged_rank = 1`, with a scalar input. -/
theorem fromVariant_negative_expected_rank_fails_witness :
    (1 : Int) < 2 ∧ inputAt [some ([] : List Dim)] 0 = some [] ∧
    RaggedTensorFromVariantShapeFn 2 1 [some []] =
      ⟨.error "Shape must be rank r but is a different rank", []⟩ :=
  ⟨by decide, rfl,
    fromVariant_negative_expected_rank_fails 2 1 [] [some []] (by decide) rfl⟩

end RaggedOps
